import Mathlib

/-!
Verification of the customisable-billiards rules engine, physics core and
reliable message channel. Definitions are shallow embeddings of the Python
source (vectors.py, simulation.py, server.py, client.py); floating-point
arithmetic is modelled over the rationals.
-/

namespace Billiards

/-- Embedding of vectors.Vector2D: two numeric components. -/
structure Vector2D where
  x : ℚ
  y : ℚ
deriving DecidableEq

instance : Add Vector2D := ⟨fun a b => ⟨a.x + b.x, a.y + b.y⟩⟩

instance : Sub Vector2D := ⟨fun a b => ⟨a.x - b.x, a.y - b.y⟩⟩

instance : Neg Vector2D := ⟨fun a => ⟨-a.x, -a.y⟩⟩

/-- Embedding of Vector2D.__mul__ (scalar multiplication). -/
def Vector2D.smul (c : ℚ) (v : Vector2D) : Vector2D := ⟨c * v.x, c * v.y⟩

/-- Embedding of Vector2D.dot_product. -/
def Vector2D.dot_product (a b : Vector2D) : ℚ := a.x * b.x + a.y * b.y

/-- Embedding of the Vector2D.magnitude_squared property. -/
def Vector2D.magnitude_squared (v : Vector2D) : ℚ := v.x ^ 2 + v.y ^ 2

/-- Embedding of Vector2D.perpendicular. -/
def Vector2D.perpendicular (v : Vector2D) : Vector2D := ⟨-v.y, v.x⟩

/-- Embedding of simulation.Circle (centre and radius). -/
structure Circle where
  centre : Vector2D
  radius : ℚ
deriving DecidableEq

/-- Embedding of Circle.contains at the default extra of 0: the squared
distance from the centre to the coordinate is at most the squared radius. -/
def Circle.contains (c : Circle) (coordinate : Vector2D) : Bool :=
  decide ((coordinate - c.centre).magnitude_squared ≤ c.radius ^ 2)

/-- Embedding of simulation.Ball as used by pocket resolution and the rules
layer: its number (none for the cue ball), stripe flag, velocity, centre and
collision flag. Object identity in the Python source is modelled by
structural equality, which agrees with identity because ball numbers are
unique on a table. -/
structure Ball where
  number : Option Nat
  striped : Bool
  vel : Vector2D
  centre : Vector2D
  can_collide : Bool
deriving DecidableEq

/-- A ball plays the role of the eight ball when its number is 8 (Table.add_ball). -/
def is_eight (b : Ball) : Bool := b.number = some 8

/-- A ball plays the role of the cue ball when it has no number (Table.add_ball). -/
def is_cue (b : Ball) : Bool := b.number = none

/-! Rules layer: Lobby.__victory_check (server.py), identical to
OfflineGame._victory_check (client.py). The loop walks the pocketed list
with its enumeration index. -/

/-- Loop of Lobby.__victory_check: find the eight ball in the pocketed list;
at enumeration index `idx`, the shooter loses unless the eight ball heads the
list, the table is closed and the list of shooter balls is empty. -/
def victory_check_go (openT : Bool) (player_balls : List Ball)
    (player_turn other_turn : Nat) : Nat → List Ball → Option Nat
  | _, [] => none
  | idx, b :: rest =>
    if is_eight b then
      some (if idx ≠ 0 ∨ openT = true ∨ player_balls ≠ [] then other_turn
            else player_turn)
    else victory_check_go openT player_balls player_turn other_turn (idx + 1) rest

/-- Embedding of Lobby.__victory_check over the table state it reads. -/
def victory_check (pocketed : List Ball) (openT : Bool)
    (player_balls : List Ball) (player_turn other_turn : Nat) : Option Nat :=
  victory_check_go openT player_balls player_turn other_turn 0 pocketed

/-- Index of the first eight ball of a list, used to state what
victory_check computes. -/
def first_eight_index : List Ball → Option Nat
  | [] => none
  | b :: rest =>
    if is_eight b then some 0 else (first_eight_index rest).map (fun n => n + 1)

/-! Rules layer: Lobby.__break_check and the forced-redo path of
Lobby.__apply_rules / Lobby.__redo. -/

/-- Loop of Lobby.__break_check over the pocketed list: the eight ball makes
the foul forced, the cue ball makes it a plain foul. -/
def break_check_go : List Ball → Bool → Bool → Bool × Bool
  | [], foul, force_redo => (foul, force_redo)
  | b :: rest, foul, force_redo =>
    if is_eight b then break_check_go rest true true
    else if is_cue b then break_check_go rest true force_redo
    else break_check_go rest foul force_redo

/-- Embedding of Lobby.__break_check: returns (foul, force_redo). -/
def break_check (pocketed rail_contacts : List Ball) : Bool × Bool :=
  if pocketed.length = 0 ∧ rail_contacts.length < 4 then (true, false)
  else break_check_go pocketed false false

/-- Embedding of Lobby.__redo: the starting player of the recreated game is
the other player when the redo is forced, the same player otherwise. -/
def redo_starting_player (forced : Bool) (player_turn other_turn : Nat) : Nat :=
  if forced then other_turn else player_turn

/-- Outcome of the break-foul branch of Lobby.__apply_rules. -/
inductive BreakFoulResolution where
  | forced (new_starting_player : Nat)
  | offer_choice (non_offending_player : Nat)
deriving DecidableEq

/-- Embedding of the break-foul branch of Lobby.__apply_rules: a forced redo
re-racks with the other player starting (no choice); otherwise the
non-offending player is offered the redo/keep choice. -/
def apply_rules_break_foul (force_redo : Bool) (player_turn other_turn : Nat) :
    BreakFoulResolution :=
  if force_redo then .forced (redo_starting_player true player_turn other_turn)
  else .offer_choice other_turn

/-! Rules layer: Lobby.__foul_check (server.py); OfflineGame._foul_check
differs only in reason strings and an equivalent cue-membership guard. -/

/-- The foul reasons appended by Lobby.__foul_check, one tag per append
site. -/
inductive FoulReason where
  | no_hit
  | eight_first
  | opponent_first
  | no_pocket_no_rail
  | cue_pocketed
deriving DecidableEq

/-- First append site of Lobby.__foul_check: failure to hit any ball. -/
def foul_no_hit (hit : List Ball) : List FoulReason :=
  if hit.length = 0 then [FoulReason.no_hit] else []

/-- Second append site of Lobby.__foul_check: on a closed table, the first
struck ball does not belong to the shooter; striking the 8-ball first is only a
foul while the shooter still has balls left to pocket. -/
def foul_first_hit (hit player_balls : List Ball) (openT : Bool) :
    List FoulReason :=
  match hit with
  | [] => []
  | h :: _ =>
    if openT = false ∧ h ∉ player_balls then
      (if is_eight h then
         (if player_balls ≠ [] then [FoulReason.eight_first] else [])
       else [FoulReason.opponent_first])
    else []

/-- Third append site of Lobby.__foul_check: no pocket and no rail contact,
or (elif) the single pocketed ball is the cue ball. -/
def foul_pocket_rail (pocketed rail_contacts : List Ball) : List FoulReason :=
  if pocketed.length = 0 ∧ rail_contacts.length = 0 then
    [FoulReason.no_pocket_no_rail]
  else
    match pocketed with
    | [b] => if is_cue b then [FoulReason.no_pocket_no_rail] else []
    | _ => []

/-- Fourth append site of Lobby.__foul_check: the cue ball is among the
pocketed balls (the source loop breaks after the first occurrence). -/
def foul_cue_pocketed (pocketed : List Ball) : List FoulReason :=
  if pocketed.any (fun b => is_cue b) then [FoulReason.cue_pocketed] else []

/-- Embedding of Lobby.__foul_check: builds the foul list in source order and
reports a foul when it is nonempty. -/
def foul_check (hit pocketed rail_contacts player_balls : List Ball)
    (openT : Bool) : Bool × List FoulReason :=
  let fouls : List FoulReason :=
    foul_no_hit hit ++ foul_first_hit hit player_balls openT
      ++ foul_pocket_rail pocketed rail_contacts ++ foul_cue_pocketed pocketed
  (decide (fouls.length > 0), fouls)

/-! Rules layer: Lobby.__open_table_check and Lobby.__close_table. -/

/-- Loop of Lobby.__open_table_check over the pocketed list: the first ball
that is neither the eight ball nor the cue ball closes the table, and
Lobby.__close_table records whether player 1 is striped. -/
def open_table_scan (player_turn : Nat) : List Ball → Bool × Option Bool
  | [] => (false, none)
  | b :: rest =>
    if !(is_eight b) && !(is_cue b) then
      (true, some ((b.striped && decide (player_turn = 1))
                   || (!b.striped && decide (player_turn = 2))))
    else open_table_scan player_turn rest

/-- Embedding of Lobby.__open_table_check: returns whether the table closes,
paired with the recorded p1_is_striped assignment when it does. -/
def open_table_check (hit pocketed : List Ball) (player_turn : Nat) :
    Bool × Option Bool :=
  match hit with
  | b :: _ =>
    if is_eight b then (false, none) else open_table_scan player_turn pocketed
  | [] => open_table_scan player_turn pocketed

/-- First ball of a list that is neither the eight ball nor the cue ball,
used to state what open_table_check finds. -/
def first_coloured : List Ball → Option Ball
  | [] => none
  | b :: rest =>
    if !(is_eight b) && !(is_cue b) then some b else first_coloured rest

/-- Whether the shooter is striped, given the player whose turn it is and the
recorded p1_is_striped flag. -/
def shooter_is_striped (player_turn : Nat) (p1_is_striped : Bool) : Bool :=
  if player_turn = 1 then p1_is_striped else !p1_is_striped

/-! Physics: the velocity update of Ball.collide_with_ball (simulation.py
lines 580-590). The source first normalises the collision normal; here the
unit normal is taken as an argument. -/

/-- Embedding of the restitution step of Ball.collide_with_ball: given the
restitution coefficient, the unit collision normal and the two incoming
velocities, returns the pair (self velocity, other ball velocity) after the
collision, following the assignment order of the source. -/
def collide_with_ball_vels (coeff : ℚ) (normal_vector self_vel ball_vel : Vector2D) :
    Vector2D × Vector2D :=
  let self_normal_vel := self_vel.dot_product normal_vector
  let ball_normal_vel := ball_vel.dot_product normal_vector
  let perpendicular := normal_vector.perpendicular
  let self_perpendicular_vel :=
    Vector2D.smul (self_vel.dot_product perpendicular) perpendicular
  let ball_perpendicular_vel :=
    Vector2D.smul (ball_vel.dot_product perpendicular) perpendicular
  let self_vel2 :=
    Vector2D.smul ((1 / 2) * ((1 - coeff) * self_normal_vel + (1 + coeff) * ball_normal_vel))
      normal_vector
  let ball_vel2 :=
    Vector2D.smul (self_normal_vel + ball_normal_vel) normal_vector - self_vel2
      + ball_perpendicular_vel
  (self_vel2 + self_perpendicular_vel, ball_vel2)

/-! Physics: Ball.apply_force and the in_motion bookkeeping of Table.update
(simulation.py). -/

/-- The physical constants read by Ball.apply_force. -/
structure PhysSettings where
  ball_mass : ℚ
  gravity : ℚ
  coeff_of_static_friction : ℚ
deriving DecidableEq

/-- Embedding of Ball.normal_contact, set in the constructor as
-mass * gravity. -/
def normal_contact (s : PhysSettings) : ℚ := -(s.ball_mass * s.gravity)

/-- The motion-relevant state of a Ball for Ball.apply_force and
Table.update. -/
structure BallMotion where
  vel : Vector2D
  applied_force : Option (Vector2D × ℚ)
  attempted_force_application : Bool
deriving DecidableEq

/-- Embedding of Ball.apply_force. The source records the impulse vector as
(cos angle * force, sin angle * force); here the unit direction vector
standing for (cos angle, sin angle) is taken as an argument. -/
def apply_force (s : PhysSettings) (b : BallMotion)
    (time_of_application force : ℚ) (direction : Vector2D) : BallMotion :=
  let b1 := { b with attempted_force_application := true }
  if b.vel.magnitude_squared = 0 ∧
      force ≤ s.coeff_of_static_friction * normal_contact s * (-1) then b1
  else { b1 with
         applied_force := some (Vector2D.smul force direction, time_of_application) }

/-- Loop of Table.update over the ball list, accumulating the in_motion
flag: a ball in motion or with an in-flight impulse is updated and marks the
table in motion; a ball that merely attempted a force application also marks
the table in motion. -/
def update_in_motion : List BallMotion → Bool → Bool
  | [], acc => acc
  | b :: rest, acc =>
    if b.vel.x ≠ 0 ∨ b.vel.y ≠ 0 ∨ b.applied_force.isSome then
      update_in_motion rest true
    else if b.attempted_force_application then update_in_motion rest true
    else update_in_motion rest acc

/-- The in_motion flag reported by Table.update, which starts from false
each tick. -/
def table_update_in_motion (balls : List BallMotion) : Bool :=
  update_in_motion balls false

/-! Table.resolve_pockets (simulation.py lines 306-326). The Python loop
iterates over the live list while deleting from it: the enumerate index
tracks the mutated list, and deletion happens at index - change_factor. The
fuel argument of the loop equals the initial list length, which bounds the
number of iterations exactly, so the embedding computes the same result. -/

/-- Loop of Table.resolve_pockets: at position i of the current live list
(with cf prior deletions), a moving ball inside some pocket is appended to
the pocketed list; a non-cue ball is deleted at position i - cf, while the
cue ball stays in place with velocity zeroed and collision disabled, and
becomes the held ball. -/
def resolve_pockets_go (pockets : List Circle) :
    Nat → Nat → Nat → List Ball → List Ball → Option Ball →
    List Ball × List Ball × Option Ball
  | 0, _, _, balls, pocketed, holding => (balls, pocketed, holding)
  | fuel + 1, i, cf, balls, pocketed, holding =>
    match balls[i]? with
    | none => (balls, pocketed, holding)
    | some ball =>
      if ball.vel.x ≠ 0 ∨ ball.vel.y ≠ 0 then
        if pockets.any (fun p => p.contains ball.centre) then
          if is_cue ball then
            let ball2 := { ball with vel := ⟨0, 0⟩, can_collide := false }
            resolve_pockets_go pockets fuel (i + 1) cf (balls.set i ball2)
              (pocketed ++ [ball2]) (some ball2)
          else
            resolve_pockets_go pockets fuel (i + 1) (cf + 1)
              (balls.eraseIdx (i - cf)) (pocketed ++ [ball]) holding
        else resolve_pockets_go pockets fuel (i + 1) cf balls pocketed holding
      else resolve_pockets_go pockets fuel (i + 1) cf balls pocketed holding

/-- Embedding of Table.resolve_pockets on the state it touches: the live
ball list, the pocketed accumulator and the held ball. -/
def resolve_pockets (pockets : List Circle) (balls pocketed : List Ball)
    (holding : Option Ball) : List Ball × List Ball × Option Ball :=
  resolve_pockets_go pockets balls.length 0 0 balls pocketed holding

/-! Reliable message channel: Connection.__apply_error and the
acknowledgment wait loop of Connection.__send_data, on both the client side
(client.py) and the server side (server.py). -/

/-- A channel message, identified by its command string. -/
structure Message where
  command : String
deriving DecidableEq

/-- The client-side Connection state touched by Connection.__apply_error. -/
structure ClientConn where
  in_use : Bool
  waiting : Bool
  send_queue : List Message
  receive_queue : List Message
  error_msg : Option String
deriving DecidableEq

/-- The server-side Connection state touched by Connection.__apply_error. -/
structure ServerConn where
  in_use : Bool
  waiting : Bool
  send_queue : List Message
  receive_queue : List Message
  in_lobby : Bool
  can_delete : Bool
deriving DecidableEq

/-- Embedding of the client-side Connection.__apply_error: disables the
connection, clears both queues and records the error message. -/
def client_apply_error (c : ClientConn) (error : String) : ClientConn :=
  { c with in_use := false, waiting := false, send_queue := [],
           receive_queue := [], error_msg := some error }

/-- The error message applied by the client sender on resend exhaustion. -/
def resend_exhausted_error : String :=
  "No longer receiving communication from server. The connection may have been lost. Please try again later."

/-- Embedding of the server-side Connection.__apply_error: disables the
connection, clears the send queue and marks the connection deletable when
not in a lobby. The receive queue is not touched. -/
def server_apply_error (c : ServerConn) : ServerConn :=
  { c with in_use := false, waiting := false, send_queue := [],
           can_delete := !c.in_lobby }

/-- State of the acknowledgment wait loop inside Connection.__send_data:
either still waiting with the current times_resent counter (and a count of
resends performed so far), or exited. -/
inductive WaitState (C : Type) where
  | waiting_on_ack (chan : C) (times_resent : Nat) (resends_done : Nat)
  | loop_exited (chan : C) (resends_done : Nat)
deriving DecidableEq

/-- One expiry of the wait interval with no acknowledgment received, in the
wait loop of Connection.__send_data: when times_resent has reached 3 the
error is applied and the loop exits; otherwise the previous significant
message is resent verbatim and times_resent is incremented. -/
def timeout_step {C : Type} (apply_err : C → C) :
    WaitState C → WaitState C
  | .waiting_on_ack c tr rs =>
    if tr = 3 then .loop_exited (apply_err c) rs
    else .waiting_on_ack c (tr + 1) (rs + 1)
  | .loop_exited c rs => .loop_exited c rs

/-- The timeout transition of the client sender (client.py lines 177-190). -/
def client_timeout_step : WaitState ClientConn → WaitState ClientConn :=
  timeout_step (fun c => client_apply_error c resend_exhausted_error)

/-- The timeout transition of the server sender (server.py lines 209-224). -/
def server_timeout_step : WaitState ServerConn → WaitState ServerConn :=
  timeout_step server_apply_error

/-! Vector2D magnitude comparisons (vectors.py). The four order comparisons
read the attribute magnitude_sqared of their argument, which no Vector2D
provides, so the attribute lookup fails; the exact comparisons __eq__ and
__ne__ read only the components. -/

/-- Dynamic lookup of a squared-magnitude attribute on a Vector2D: the class
defines magnitude_squared, and any other spelling fails with an
AttributeError. -/
def magnitude_lookup (v : Vector2D) (name : String) : Except String ℚ :=
  if name = "magnitude_squared" then Except.ok v.magnitude_squared
  else Except.error "AttributeError"

/-- Embedding of Vector2D.__lt__: compares self.magnitude_squared with the
magnitude_sqared attribute of the argument (as spelt in the source). -/
def vector_lt (a b : Vector2D) : Except String Bool := do
  let m1 ← magnitude_lookup a "magnitude_squared"
  let m2 ← magnitude_lookup b "magnitude_sqared"
  pure (decide (m1 < m2))

/-- Embedding of Vector2D.__le__. -/
def vector_le (a b : Vector2D) : Except String Bool := do
  let m1 ← magnitude_lookup a "magnitude_squared"
  let m2 ← magnitude_lookup b "magnitude_sqared"
  pure (decide (m1 ≤ m2))

/-- Embedding of Vector2D.__ge__. -/
def vector_ge (a b : Vector2D) : Except String Bool := do
  let m1 ← magnitude_lookup a "magnitude_squared"
  let m2 ← magnitude_lookup b "magnitude_sqared"
  pure (decide (m1 ≥ m2))

/-- Embedding of Vector2D.__gt__. -/
def vector_gt (a b : Vector2D) : Except String Bool := do
  let m1 ← magnitude_lookup a "magnitude_squared"
  let m2 ← magnitude_lookup b "magnitude_sqared"
  pure (decide (m1 > m2))

/-- Embedding of Vector2D.__eq__: exact component-wise comparison. -/
def vector_eq (a b : Vector2D) : Bool :=
  decide (a.x = b.x) && decide (a.y = b.y)

/-- Embedding of Vector2D.__ne__: exact component-wise comparison. -/
def vector_ne (a b : Vector2D) : Bool :=
  decide (a.x ≠ b.x) || decide (a.y ≠ b.y)

/-! Theorems. -/

/-- The victory-check loop finds the first eight ball, with the running
enumeration index shifted by the accumulator. -/
theorem victory_check_go_spec (openT : Bool) (pb : List Ball) (pt ot : Nat)
    (i : Nat) (l : List Ball) :
    victory_check_go openT pb pt ot i l
      = (first_eight_index l).map
          (fun n => if i + n ≠ 0 ∨ openT = true ∨ pb ≠ [] then ot else pt) := by
  induction l generalizing i with
  | nil => simp [victory_check_go, first_eight_index]
  | cons b rest ih =>
    by_cases h8 : is_eight b
    · simp [victory_check_go, first_eight_index, h8]
    · simp only [victory_check_go, first_eight_index, h8, if_false,
        Bool.false_eq_true, ite_false, ih, Option.map_map]
      congr 1
      funext n
      have h' : i + (n + 1) = i + 1 + n := by omega
      simp [Function.comp, h']

/-- C1 (amended): when a settled shot is evaluated in a non-break state, the
victory check returns no winner when the 8-ball is not in the pocketed
list of this turn; otherwise, taking idx to be the position of the (first)
8-ball in the pocketed list, the opponent is declared winner when idx is
nonzero (the 8-ball was NOT the first pocketed ball), or the table was open,
or the shooter still has un-pocketed group balls remaining; otherwise the
shooter is declared winner. -/
theorem c1_victory_check_amended (pocketed : List Ball) (openT : Bool)
    (player_balls : List Ball) (pt ot : Nat) :
    victory_check pocketed openT player_balls pt ot
      = (first_eight_index pocketed).map
          (fun idx => if idx ≠ 0 ∨ openT = true ∨ player_balls ≠ [] then ot
                      else pt) := by
  have h := victory_check_go_spec openT player_balls pt ot 0 pocketed
  simpa [victory_check] using h

/-- C1 counterexample: the 8-ball is the first (and only) ball pocketed this
turn, the table is closed and the shooter (player 1) has no group balls
remaining; the code declares the shooter the winner, whereas the claim says
the shooter loses (player 2 should win). -/
theorem c1_counterexample :
    victory_check [⟨some 8, false, ⟨0, 0⟩, ⟨0, 0⟩, true⟩] false [] 1 2 = some 1
    ∧ (some 1 : Option Nat) ≠ some 2 := by
  constructor
  · rfl
  · decide

/-- The break-check loop reports a foul when it finds the eight ball or the
cue ball, and forces the redo exactly when it finds the eight ball. -/
theorem break_check_go_spec (l : List Ball) (foul force : Bool) :
    break_check_go l foul force
      = (foul || l.any (fun b => is_eight b) || l.any (fun b => is_cue b),
         force || l.any (fun b => is_eight b)) := by
  induction l generalizing foul force with
  | nil => simp [break_check_go]
  | cons b rest ih =>
    by_cases h8 : is_eight b
    · simp [break_check_go, h8, ih]
    · by_cases hc : is_cue b
      · simp [break_check_go, h8, hc, ih, Bool.or_left_comm, Bool.or_assoc,
          Bool.or_comm]
      · simp [break_check_go, h8, hc, ih]

/-- C2: on a break, a foul is reported iff zero balls were pocketed and
fewer than 4 rail contacts were recorded, or the 8-ball was pocketed, or the
cue ball was pocketed; the redo is forced exactly when the 8-ball was
pocketed; and a forced redo re-racks with the other player breaking, with no
choice offered. -/
theorem c2_break_check (pocketed rail_contacts : List Ball) (pt ot : Nat) :
    ((break_check pocketed rail_contacts).1 = true ↔
      ((pocketed = [] ∧ rail_contacts.length < 4)
        ∨ (∃ b ∈ pocketed, is_eight b = true)
        ∨ (∃ b ∈ pocketed, is_cue b = true)))
    ∧ ((break_check pocketed rail_contacts).2 = true ↔
        (∃ b ∈ pocketed, is_eight b = true))
    ∧ apply_rules_break_foul true pt ot = BreakFoulResolution.forced ot := by
  have hgo := break_check_go_spec pocketed false false
  refine ⟨?_, ?_, rfl⟩
  · unfold break_check
    split_ifs with h
    · rcases h with ⟨hlen, hrail⟩
      rw [List.length_eq_zero] at hlen
      subst hlen
      simp [hrail]
    · rw [not_and_or] at h
      simp only [hgo, Bool.false_or, Bool.or_eq_true, List.any_eq_true]
      constructor
      · intro hx
        rcases hx with hx | hx
        · exact Or.inr (Or.inl hx)
        · exact Or.inr (Or.inr hx)
      · intro hx
        rcases hx with ⟨hnil, hlt⟩ | hx | hx
        · subst hnil
          rcases h with h | h
          · simp at h
          · exact absurd hlt h
        · exact Or.inl hx
        · exact Or.inr hx
  · unfold break_check
    split_ifs with h
    · rcases h with ⟨hlen, hrail⟩
      rw [List.length_eq_zero] at hlen
      subst hlen
      simp
    · simp only [hgo, Bool.false_or, List.any_eq_true]

/-- C2 witness: a break in which only the 8-ball was pocketed is a forced
redo handing the break to player 2. -/
theorem c2_break_check_witness :
    apply_rules_break_foul true 1 2 = BreakFoulResolution.forced 2 :=
  (c2_break_check [⟨some 8, false, ⟨0, 0⟩, ⟨0, 0⟩, true⟩] [] 1 2).2.2

/-- C5 (amended): when a significant message is awaiting acknowledgment and
none ever arrives, the fourth expiry of the wait interval (after 3 resend
attempts) breaks the channel: on the client side in_use becomes false and
both queues are cleared; on the server side in_use becomes false and the
send queue is cleared, but the receive queue is left unchanged. -/
theorem c5_channel_broken_after_resends (cc : ClientConn) (sc : ServerConn) :
    client_timeout_step (client_timeout_step (client_timeout_step
        (client_timeout_step (WaitState.waiting_on_ack cc 0 0))))
      = WaitState.loop_exited
          ⟨false, false, [], [], some resend_exhausted_error⟩ 3
    ∧ server_timeout_step (server_timeout_step (server_timeout_step
        (server_timeout_step (WaitState.waiting_on_ack sc 0 0))))
      = WaitState.loop_exited
          ⟨false, false, [], sc.receive_queue, sc.in_lobby, !sc.in_lobby⟩ 3 :=
  ⟨rfl, rfl⟩

/-- C5 counterexample: a server-side channel holding one inbound message
when resends are exhausted transitions to broken with its receive queue
still nonempty, contradicting the claim that both queues are cleared on both
sides. -/
theorem c5_counterexample_server_receive_queue :
    server_timeout_step (server_timeout_step (server_timeout_step
        (server_timeout_step (WaitState.waiting_on_ack
          ⟨true, true, [], [⟨"hit_ball"⟩], true, false⟩ 0 0))))
      = WaitState.loop_exited ⟨false, false, [], [⟨"hit_ball"⟩], true, false⟩ 3
    ∧ ([(⟨"hit_ball"⟩ : Message)] : List Message) ≠ [] := by
  exact ⟨rfl, by simp⟩

/-- C5 witness: the amended statement at a concrete pair of channels. -/
theorem c5_witness :
    client_timeout_step (client_timeout_step (client_timeout_step
        (client_timeout_step (WaitState.waiting_on_ack
          (⟨true, true, [⟨"pass_turn"⟩], [⟨"foul"⟩], none⟩ : ClientConn) 0 0))))
      = WaitState.loop_exited
          ⟨false, false, [], [], some resend_exhausted_error⟩ 3 :=
  (c5_channel_broken_after_resends ⟨true, true, [⟨"pass_turn"⟩], [⟨"foul"⟩], none⟩
    ⟨true, true, [], [], true, false⟩).1

/-- C10: every Vector2D magnitude-order comparison (lt, le, ge, gt) fails
with an AttributeError because it reads the missing magnitude_sqared
attribute of its argument, while the exact component-wise eq and ne
comparisons complete normally with a Boolean. -/
theorem c10_vector_comparisons (a b : Vector2D) :
    vector_lt a b = Except.error "AttributeError"
    ∧ vector_le a b = Except.error "AttributeError"
    ∧ vector_ge a b = Except.error "AttributeError"
    ∧ vector_gt a b = Except.error "AttributeError"
    ∧ (vector_eq a b = true ↔ (a.x = b.x ∧ a.y = b.y))
    ∧ vector_ne a b = !(vector_eq a b) := by
  refine ⟨rfl, rfl, rfl, rfl, ?_, ?_⟩
  · simp [vector_eq]
  · simp [vector_eq, vector_ne, decide_not]

/-- The no-hit segment of the foul check is nonempty exactly when no ball
was struck. -/
theorem foul_no_hit_spec (hit : List Ball) :
    foul_no_hit hit ≠ [] ↔ hit = [] := by
  unfold foul_no_hit
  split_ifs with h
  · simp [List.length_eq_zero.mp h]
  · simpa using fun hx => h (by simp [hx])

/-- The first-hit segment of the foul check is nonempty exactly when the
table is closed, a first ball was struck that the shooter does not own,
and it is not the legal case of striking the 8-ball with no group balls
left. -/
theorem foul_first_hit_spec (hit player_balls : List Ball) (openT : Bool) :
    foul_first_hit hit player_balls openT ≠ [] ↔
      (openT = false ∧ ∃ h, hit.head? = some h ∧ h ∉ player_balls
        ∧ (is_eight h = true → player_balls ≠ [])) := by
  rcases hit with _ | ⟨h, t⟩
  · simp [foul_first_hit]
  · simp only [foul_first_hit, List.head?_cons, Option.some.injEq]
    split_ifs with h1 h2 h3
    · simp only [ne_eq, List.cons_ne_nil, not_false_eq_true, true_iff]
      exact ⟨h1.1, h, rfl, h1.2, fun _ => h3⟩
    · simp only [ne_eq, not_true_eq_false, false_iff, not_and]
      intro _ hx
      rcases hx with ⟨h', hh', _, h8⟩
      subst hh'
      exact absurd (h8 h2) h3
    · simp only [ne_eq, List.cons_ne_nil, not_false_eq_true, true_iff]
      exact ⟨h1.1, h, rfl, h1.2, fun hx => absurd hx (by simp [h2])⟩
    · simp only [ne_eq, not_true_eq_false, false_iff, not_and]
      rw [not_and_or] at h1
      intro hopen hx
      rcases hx with ⟨h', hh', hnot, _⟩
      subst hh'
      rcases h1 with h1 | h1
      · exact h1 hopen
      · exact h1 (by simpa using hnot)

/-- The pocket-rail segment of the foul check is nonempty exactly when
nothing was pocketed and no rail was contacted, or the single pocketed ball
is the cue ball. -/
theorem foul_pocket_rail_spec (pocketed rail_contacts : List Ball) :
    foul_pocket_rail pocketed rail_contacts ≠ [] ↔
      ((pocketed = [] ∧ rail_contacts = [])
        ∨ (∃ b, pocketed = [b] ∧ is_cue b = true)) := by
  unfold foul_pocket_rail
  split_ifs with h
  · simp only [ne_eq, List.cons_ne_nil, not_false_eq_true, true_iff]
    exact Or.inl ⟨List.length_eq_zero.mp h.1, List.length_eq_zero.mp h.2⟩
  · rcases pocketed with _ | ⟨b, rest⟩
    · simp only [ne_eq, not_true_eq_false, false_iff, not_or, not_and]
      constructor
      · intro _ hr
        exact h ⟨rfl, by simp [hr]⟩
      · rintro ⟨b, hb, _⟩
        exact absurd hb (by simp)
    · rcases rest with _ | ⟨b2, rest2⟩
      · by_cases hc : is_cue b
        · simp only [hc, if_true, ne_eq, List.cons_ne_nil, not_false_eq_true,
            true_iff]
          exact Or.inr ⟨b, rfl, hc⟩
        · simp only [hc, Bool.false_eq_true, if_false, ne_eq,
            not_true_eq_false, false_iff, not_or, not_and]
          constructor
          · intro hx
            exact absurd hx (by simp)
          · rintro ⟨b', hb', hcb'⟩
            rw [List.cons.injEq] at hb'
            rw [hb'.1] at hc
            exact absurd hcb' (by simpa using hc)
      · simp only [ne_eq, not_true_eq_false, false_iff, not_or, not_and]
        constructor
        · intro hx
          exact absurd hx (by simp)
        · rintro ⟨b', hb', _⟩
          simp at hb'

/-- The cue-pocket segment of the foul check is nonempty exactly when the
cue ball is among the pocketed balls. -/
theorem foul_cue_pocketed_spec (pocketed : List Ball) :
    foul_cue_pocketed pocketed ≠ [] ↔ (∃ b ∈ pocketed, is_cue b = true) := by
  unfold foul_cue_pocketed
  split_ifs with h
  · simpa using List.any_eq_true.mp h
  · simp only [ne_eq, not_true_eq_false, false_iff]
    intro hx
    exact absurd (List.any_eq_true.mpr hx) (by simpa using h)

/-- C6 (amended): a settled non-break shot is a foul iff no ball was struck,
or the table is closed and the first struck ball does not belong to the shooter
(striking the 8-ball first fouls only while the shooter still has group
balls left), or zero balls were pocketed and zero rail contacts occurred, or
the cue ball is among the pocketed balls (not necessarily the only pocketed
ball). -/
theorem c6_foul_check_amended (hit pocketed rail_contacts player_balls : List Ball)
    (openT : Bool) :
    (foul_check hit pocketed rail_contacts player_balls openT).1 = true ↔
      (hit = []
        ∨ (openT = false ∧ ∃ h, hit.head? = some h ∧ h ∉ player_balls
            ∧ (is_eight h = true → player_balls ≠ []))
        ∨ (pocketed = [] ∧ rail_contacts = [])
        ∨ (∃ b ∈ pocketed, is_cue b = true)) := by
  have hsplit : (foul_check hit pocketed rail_contacts player_balls openT).1 = true ↔
      (foul_no_hit hit ≠ [] ∨ foul_first_hit hit player_balls openT ≠ []
        ∨ foul_pocket_rail pocketed rail_contacts ≠ []
        ∨ foul_cue_pocketed pocketed ≠ []) := by
    simp only [foul_check, decide_eq_true_eq, List.length_pos, ne_eq,
      List.append_eq_nil, not_and]
    tauto
  rw [hsplit, foul_no_hit_spec, foul_first_hit_spec, foul_pocket_rail_spec,
    foul_cue_pocketed_spec]
  have habsorb : (∃ b, pocketed = [b] ∧ is_cue b = true) →
      (∃ b ∈ pocketed, is_cue b = true) := by
    rintro ⟨b, hb, hcb⟩
    exact ⟨b, by simp [hb], hcb⟩
  constructor
  · intro hx
    rcases hx with a | b | (c | d) | e
    · exact Or.inl a
    · exact Or.inr (Or.inl b)
    · exact Or.inr (Or.inr (Or.inl c))
    · exact Or.inr (Or.inr (Or.inr (habsorb d)))
    · exact Or.inr (Or.inr (Or.inr e))
  · intro hx
    rcases hx with a | b | c | e
    · exact Or.inl a
    · exact Or.inr (Or.inl b)
    · exact Or.inr (Or.inr (Or.inl (Or.inl c)))
    · exact Or.inr (Or.inr (Or.inr e))

/-- C6 counterexample: the shooter legally strikes and pockets one of their
own balls but also pockets the cue ball alongside it; the code reports a
foul, whereas all four conditions of the claim fail (in particular the cue
ball is not the only pocketed ball). -/
theorem c6_counterexample :
    (foul_check [⟨some 1, false, ⟨0, 0⟩, ⟨0, 0⟩, true⟩]
        [⟨some 1, false, ⟨0, 0⟩, ⟨0, 0⟩, true⟩, ⟨none, false, ⟨0, 0⟩, ⟨0, 0⟩, true⟩]
        [] [⟨some 1, false, ⟨0, 0⟩, ⟨0, 0⟩, true⟩] false).1 = true
    ∧ ([⟨some 1, false, ⟨0, 0⟩, ⟨0, 0⟩, true⟩] : List Ball) ≠ []
    ∧ (⟨some 1, false, ⟨0, 0⟩, ⟨0, 0⟩, true⟩ : Ball)
        ∈ [(⟨some 1, false, ⟨0, 0⟩, ⟨0, 0⟩, true⟩ : Ball)]
    ∧ ([⟨some 1, false, ⟨0, 0⟩, ⟨0, 0⟩, true⟩,
        ⟨none, false, ⟨0, 0⟩, ⟨0, 0⟩, true⟩] : List Ball) ≠ []
    ∧ ([⟨some 1, false, ⟨0, 0⟩, ⟨0, 0⟩, true⟩,
        ⟨none, false, ⟨0, 0⟩, ⟨0, 0⟩, true⟩] : List Ball)
        ≠ [⟨none, false, ⟨0, 0⟩, ⟨0, 0⟩, true⟩] := by
  refine ⟨?_, by simp, by simp, by simp, by simp⟩
  decide

/-- The open-table scan finds the first non-eight, non-cue pocketed ball and
records the p1_is_striped assignment computed by Lobby.__close_table. -/
theorem open_table_scan_spec (pt : Nat) (l : List Ball) :
    open_table_scan pt l
      = (match first_coloured l with
         | none => (false, none)
         | some b => (true, some ((b.striped && decide (pt = 1))
                                  || (!b.striped && decide (pt = 2))))) := by
  induction l with
  | nil => simp [open_table_scan, first_coloured]
  | cons b rest ih =>
    by_cases hb : !(is_eight b) && !(is_cue b)
    · simp [open_table_scan, first_coloured, hb]
    · simp [open_table_scan, first_coloured, hb, ih]

/-- C7: while the table is open, if the first ball struck this turn was the
8-ball the table stays open with no group assignment regardless of pockets;
otherwise the table closes exactly when the pocketed list of this turn has a
non-cue, non-8 ball, and the recorded assignment gives the shooter the group
(striped or spotted) of the first such ball. -/
theorem c7_open_table_check (hit pocketed : List Ball) (pt : Nat)
    (hpt : pt = 1 ∨ pt = 2) :
    (∀ b rest, hit = b :: rest → is_eight b = true →
        open_table_check hit pocketed pt = (false, none))
    ∧ ((hit = [] ∨ ∃ b rest, hit = b :: rest ∧ is_eight b = false) →
        ((first_coloured pocketed = none →
            open_table_check hit pocketed pt = (false, none))
         ∧ (∀ b, first_coloured pocketed = some b →
            ∃ a, open_table_check hit pocketed pt = (true, some a)
              ∧ shooter_is_striped pt a = b.striped))) := by
  constructor
  · intro b rest hb h8
    subst hb
    simp [open_table_check, h8]
  · intro hhit
    have hscan : open_table_check hit pocketed pt = open_table_scan pt pocketed := by
      rcases hhit with hnil | ⟨b, rest, hb, h8⟩
      · subst hnil
        rfl
      · subst hb
        simp [open_table_check, h8]
    constructor
    · intro hnone
      rw [hscan, open_table_scan_spec, hnone]
    · intro b hsome
      rw [hscan, open_table_scan_spec, hsome]
      refine ⟨(b.striped && decide (pt = 1)) || (!b.striped && decide (pt = 2)),
        rfl, ?_⟩
      rcases hpt with hpt | hpt
      · subst hpt
        cases hs : b.striped <;> simp [shooter_is_striped, hs]
      · subst hpt
        cases hs : b.striped <;> simp [shooter_is_striped, hs]

/-- C7 witness: player 1 does not strike the 8-ball first and pockets a
striped ball on the open table; the table closes and player 1 (the shooter)
is assigned the striped group. -/
theorem c7_witness :
    ∃ a, open_table_check [⟨some 1, false, ⟨0, 0⟩, ⟨0, 0⟩, true⟩]
        [⟨some 9, true, ⟨0, 0⟩, ⟨0, 0⟩, true⟩] 1 = (true, some a)
      ∧ shooter_is_striped 1 a
          = (⟨some 9, true, ⟨0, 0⟩, ⟨0, 0⟩, true⟩ : Ball).striped :=
  ((c7_open_table_check [⟨some 1, false, ⟨0, 0⟩, ⟨0, 0⟩, true⟩]
      [⟨some 9, true, ⟨0, 0⟩, ⟨0, 0⟩, true⟩] 1 (Or.inl rfl)).2
    (Or.inr ⟨⟨some 1, false, ⟨0, 0⟩, ⟨0, 0⟩, true⟩, [], rfl, by decide⟩)).2
    ⟨some 9, true, ⟨0, 0⟩, ⟨0, 0⟩, true⟩ (by decide)

/-- A vector has squared magnitude zero exactly when it is the zero
vector. -/
theorem magnitude_squared_eq_zero_iff (v : Vector2D) :
    v.magnitude_squared = 0 ↔ v = ⟨0, 0⟩ := by
  unfold Vector2D.magnitude_squared
  constructor
  · intro h
    have hx : v.x = 0 := by nlinarith [sq_nonneg v.x, sq_nonneg v.y]
    have hy : v.y = 0 := by nlinarith [sq_nonneg v.x, sq_nonneg v.y]
    cases v
    simp_all
  · intro h
    subst h
    norm_num

/-- Once the in-motion accumulator of the Table.update loop is set, it stays
set. -/
theorem update_in_motion_true (l : List BallMotion) :
    update_in_motion l true = true := by
  induction l with
  | nil => rfl
  | cons b rest ih =>
    unfold update_in_motion
    split_ifs <;> exact ih

/-- A ball with the attempted-strike flag set makes the Table.update loop
report motion, whatever the accumulator. -/
theorem update_in_motion_of_attempted (l : List BallMotion) (b0 : BallMotion)
    (hmem : b0 ∈ l) (hatt : b0.attempted_force_application = true) :
    ∀ acc : Bool, update_in_motion l acc = true := by
  induction l with
  | nil => cases hmem
  | cons b rest ih =>
    intro acc
    rcases List.mem_cons.mp hmem with hb | hb
    · subst hb
      unfold update_in_motion
      rw [hatt]
      split_ifs with h1 h2
      · exact update_in_motion_true rest
      · exact update_in_motion_true rest
      · exact absurd rfl h2
    · unfold update_in_motion
      split_ifs <;> exact ih hb _

/-- C9: every call to Ball.apply_force sets the attempted-strike flag; it
records an in-flight impulse iff the ball is moving or the force exceeds the
static-friction resistance (coefficient of static friction times mass times
gravity); a rejected call changes nothing but the attempted flag; and a
Table.update in which some ball has (only) the attempted flag set still
reports the table as in motion. -/
theorem c9_apply_force (s : PhysSettings) (b : BallMotion) (t f : ℚ)
    (d : Vector2D) :
    (apply_force s b t f d).attempted_force_application = true
    ∧ (b.applied_force = none →
        ((apply_force s b t f d).applied_force.isSome = true ↔
          (b.vel ≠ ⟨0, 0⟩
            ∨ f > s.coeff_of_static_friction * s.ball_mass * s.gravity)))
    ∧ ((b.vel = ⟨0, 0⟩
         ∧ f ≤ s.coeff_of_static_friction * s.ball_mass * s.gravity) →
        apply_force s b t f d = { b with attempted_force_application := true })
    ∧ (∀ (balls : List BallMotion) (b0 : BallMotion), b0 ∈ balls →
        b0.attempted_force_application = true →
        table_update_in_motion balls = true) := by
  have hthr : s.coeff_of_static_friction * normal_contact s * (-1)
      = s.coeff_of_static_friction * s.ball_mass * s.gravity := by
    unfold normal_contact
    ring
  refine ⟨?_, ?_, ?_, ?_⟩
  · unfold apply_force
    split_ifs <;> rfl
  · intro hnone
    unfold apply_force
    split_ifs with h
    · simp only [hnone, Option.isSome_none, Bool.false_eq_true, false_iff,
        not_or, not_lt]
      rcases h with ⟨hmag, hle⟩
      rw [hthr] at hle
      exact ⟨by simpa using (magnitude_squared_eq_zero_iff b.vel).mp hmag, hle⟩
    · simp only [Option.isSome_some, true_iff]
      rw [not_and_or] at h
      rcases h with h | h
      · exact Or.inl fun hx =>
          h ((magnitude_squared_eq_zero_iff b.vel).mpr hx)
      · rw [hthr] at h
        exact Or.inr (by linarith [not_le.mp h])
  · rintro ⟨hzero, hle⟩
    unfold apply_force
    rw [if_pos ⟨(magnitude_squared_eq_zero_iff b.vel).mpr hzero, by
      rw [hthr]
      exact hle⟩]
  · intro balls b0 hmem hatt
    exact update_in_motion_of_attempted balls b0 hmem hatt false

/-- C9 witness: a ball at rest receiving a force of 1 N against a static
friction resistance of 2 N keeps no impulse, only the attempted flag, and a
table holding just that struck ball reports itself in motion. -/
theorem c9_witness :
    apply_force ⟨1, 10, 1/5⟩ ⟨⟨0, 0⟩, none, false⟩ 5 1 ⟨1, 0⟩
        = ⟨⟨0, 0⟩, none, true⟩
    ∧ table_update_in_motion [⟨⟨0, 0⟩, none, true⟩] = true :=
  ⟨(c9_apply_force ⟨1, 10, 1/5⟩ ⟨⟨0, 0⟩, none, false⟩ 5 1 ⟨1, 0⟩).2.2.1
      ⟨rfl, by norm_num⟩,
   (c9_apply_force ⟨1, 10, 1/5⟩ ⟨⟨0, 0⟩, none, false⟩ 5 1 ⟨1, 0⟩).2.2.2
      [⟨⟨0, 0⟩, none, true⟩] ⟨⟨0, 0⟩, none, true⟩ (by simp) rfl⟩

/-- Componentwise description of vector subtraction. -/
theorem Vector2D.sub_def (a b : Vector2D) : a - b = ⟨a.x - b.x, a.y - b.y⟩ := rfl

/-- Componentwise description of vector addition. -/
theorem Vector2D.add_def (a b : Vector2D) : a + b = ⟨a.x + b.x, a.y + b.y⟩ := rfl

/-- C3: evaluating Table.resolve_pockets with two moving balls (numbers 1
and 2) whose centres both lie inside the single pocket. Ball 1 is pocketed
and deleted, but the iteration index then points past ball 2 in the mutated
list, so ball 2 is never tested: it stays in the live list and is not
appended to the pocketed accumulator, although it is moving and inside a
pocket. -/
theorem c3_resolve_pockets_divergence :
    resolve_pockets [⟨⟨0, 0⟩, 1⟩]
        [⟨some 1, false, ⟨1, 0⟩, ⟨0, 0⟩, true⟩,
         ⟨some 2, false, ⟨1, 0⟩, ⟨0, 0⟩, true⟩] [] none
      = ([⟨some 2, false, ⟨1, 0⟩, ⟨0, 0⟩, true⟩],
         [⟨some 1, false, ⟨1, 0⟩, ⟨0, 0⟩, true⟩], none)
    ∧ (⟨some 2, false, ⟨1, 0⟩, ⟨0, 0⟩, true⟩ : Ball).vel.x ≠ 0
    ∧ Circle.contains ⟨⟨0, 0⟩, 1⟩
        (⟨some 2, false, ⟨1, 0⟩, ⟨0, 0⟩, true⟩ : Ball).centre = true := by
  refine ⟨?_, by norm_num,
    by norm_num [Circle.contains, Vector2D.sub_def, Vector2D.magnitude_squared]⟩
  norm_num [resolve_pockets, resolve_pockets_go, Circle.contains, is_cue,
    Vector2D.magnitude_squared, Vector2D.sub_def]
  intro h
  exact absurd h (Option.some_ne_none 1)

/-- The resolve-pockets loop preserves the live-ball count plus the count of
non-cue entries of the pocketed accumulator: a pocketed non-cue ball trades
one live entry for one counted pocketed entry, while a pocketed cue ball is
appended without being counted and stays live. -/
theorem resolve_pockets_go_count (pockets : List Circle) (fuel : Nat) :
    ∀ (i cf : Nat) (balls pocketed : List Ball) (holding : Option Ball),
      (resolve_pockets_go pockets fuel i cf balls pocketed holding).1.length
        + (resolve_pockets_go pockets fuel i cf balls pocketed holding).2.1.countP
            (fun b => !(is_cue b))
      = balls.length + pocketed.countP (fun b => !(is_cue b)) := by
  induction fuel with
  | zero =>
    intro i cf balls pocketed holding
    rfl
  | succ n ih =>
    intro i cf balls pocketed holding
    unfold resolve_pockets_go
    cases hb : balls[i]? with
    | none => rfl
    | some ball =>
      have hi : i < balls.length := by
        by_contra hcon
        rw [List.getElem?_eq_none (le_of_not_lt hcon)] at hb
        cases hb
      dsimp only
      split_ifs with hmove hpocket hcue
      · rw [ih]
        simp only [List.length_set, List.countP_append, List.countP_cons,
          List.countP_nil]
        have hc2 : is_cue { ball with vel := ⟨0, 0⟩, can_collide := false } = true := hcue
        simp [hc2]
      · rw [ih]
        have hlt : i - cf < balls.length := by omega
        have herase : (balls.eraseIdx (i - cf)).length = balls.length - 1 := by
          rw [List.length_eraseIdx, if_pos hlt]
        have hcue' : (fun b => !(is_cue b)) ball = true := by
          simp [hcue]
        simp only [herase, List.countP_append, List.countP_cons,
          List.countP_nil, hcue', if_true]
        omega
      · exact ih _ _ _ _ _
      · exact ih _ _ _ _ _

/-- C4 (amended): every call to Table.resolve_pockets preserves the number
of live balls plus the number of non-cue balls ever pocketed: a pocket event
removes exactly one live ball when the pocketed ball is not the cue ball,
while a pocketed cue ball is appended to the pocketed list but kept in the
live list as the held ball, so the plain sum of live and pocketed balls
grows by one exactly then. -/
theorem c4_ball_count_amended (pockets : List Circle) (balls pocketed : List Ball)
    (holding : Option Ball) :
    (resolve_pockets pockets balls pocketed holding).1.length
      + (resolve_pockets pockets balls pocketed holding).2.1.countP
          (fun b => !(is_cue b))
    = balls.length + pocketed.countP (fun b => !(is_cue b)) :=
  resolve_pockets_go_count pockets balls.length 0 0 balls pocketed holding

/-- C4 counterexample: the moving cue ball enters a pocket; it is appended
to the pocketed list yet stays in the live list (as the held ball), so the
number of live balls plus pocketed balls goes from 1 to 2 across this
resolve_pockets call, contradicting the claimed constancy. -/
theorem c4_counterexample :
    (resolve_pockets [⟨⟨0, 0⟩, 1⟩] [⟨none, false, ⟨1, 0⟩, ⟨0, 0⟩, true⟩]
        [] none).1.length
      + (resolve_pockets [⟨⟨0, 0⟩, 1⟩] [⟨none, false, ⟨1, 0⟩, ⟨0, 0⟩, true⟩]
          [] none).2.1.length = 2
    ∧ ([⟨none, false, ⟨1, 0⟩, ⟨0, 0⟩, true⟩] : List Ball).length
        + ([] : List Ball).length = 1
    ∧ (2 : Nat) ≠ 1 := by
  refine ⟨?_, rfl, by decide⟩
  norm_num [resolve_pockets, resolve_pockets_go, Circle.contains, is_cue,
    Vector2D.magnitude_squared, Vector2D.sub_def]

/-- C8: for the equal-mass restitution step of Ball.collide_with_ball with a
unit collision normal and nonnegative restitution coefficient, the
tangential (perpendicular) velocity components of both balls are unchanged,
the post-collision relative speed along the normal is at most the
restitution coefficient times the pre-collision relative normal speed, and
with restitution 1 and equal, opposite, head-on (normal-aligned) incoming
velocities the two velocities are exactly exchanged. -/
theorem c8_collide_with_ball (coeff : ℚ) (n v1 v2 : Vector2D)
    (hn : n.magnitude_squared = 1) (he : 0 ≤ coeff) :
    ((collide_with_ball_vels coeff n v1 v2).1.dot_product n.perpendicular
        = v1.dot_product n.perpendicular)
    ∧ ((collide_with_ball_vels coeff n v1 v2).2.dot_product n.perpendicular
        = v2.dot_product n.perpendicular)
    ∧ |(collide_with_ball_vels coeff n v1 v2).1.dot_product n
        - (collide_with_ball_vels coeff n v1 v2).2.dot_product n|
        ≤ coeff * |v1.dot_product n - v2.dot_product n|
    ∧ (coeff = 1 → ∀ c : ℚ, v1 = Vector2D.smul c n → v2 = Vector2D.smul (-c) n →
        collide_with_ball_vels coeff n v1 v2 = (v2, v1)) := by
  obtain ⟨nx, ny⟩ := n
  obtain ⟨ax, ay⟩ := v1
  obtain ⟨bx, cy⟩ := v2
  simp only [Vector2D.magnitude_squared] at hn
  refine ⟨?_, ?_, ?_, ?_⟩
  · simp only [collide_with_ball_vels, Vector2D.dot_product,
      Vector2D.perpendicular, Vector2D.smul, Vector2D.add_def, Vector2D.sub_def]
    linear_combination (ay * nx - ax * ny) * hn
  · simp only [collide_with_ball_vels, Vector2D.dot_product,
      Vector2D.perpendicular, Vector2D.smul, Vector2D.add_def, Vector2D.sub_def]
    linear_combination (cy * nx - bx * ny) * hn
  · have key : (collide_with_ball_vels coeff ⟨nx, ny⟩ ⟨ax, ay⟩ ⟨bx, cy⟩).1.dot_product
          (⟨nx, ny⟩ : Vector2D)
        - (collide_with_ball_vels coeff ⟨nx, ny⟩ ⟨ax, ay⟩ ⟨bx, cy⟩).2.dot_product
          (⟨nx, ny⟩ : Vector2D)
        = -(coeff * (Vector2D.dot_product ⟨ax, ay⟩ ⟨nx, ny⟩
            - Vector2D.dot_product ⟨bx, cy⟩ ⟨nx, ny⟩)) := by
      simp only [collide_with_ball_vels, Vector2D.dot_product,
        Vector2D.perpendicular, Vector2D.smul, Vector2D.add_def,
        Vector2D.sub_def]
      linear_combination (-(coeff * ((ax * nx + ay * ny) - (bx * nx + cy * ny)))) * hn
    rw [key, abs_neg, abs_mul, abs_of_nonneg he]
  · intro hco c h1 h2
    subst hco
    rw [h1, h2]
    simp only [collide_with_ball_vels, Vector2D.dot_product,
      Vector2D.perpendicular, Vector2D.smul, Vector2D.add_def, Vector2D.sub_def,
      Prod.mk.injEq, Vector2D.mk.injEq]
    refine ⟨⟨?_, ?_⟩, ?_, ?_⟩
    · linear_combination (-(c * nx)) * hn
    · linear_combination (-(c * ny)) * hn
    · linear_combination (c * nx) * hn
    · linear_combination (c * ny) * hn

/-- C8 witness: a head-on collision along the x axis with restitution 1 and
opposite unit velocities exchanges the two velocities exactly. -/
theorem c8_witness :
    collide_with_ball_vels 1 ⟨1, 0⟩ ⟨1, 0⟩ ⟨-1, 0⟩ = (⟨-1, 0⟩, ⟨1, 0⟩) :=
  (c8_collide_with_ball 1 ⟨1, 0⟩ ⟨1, 0⟩ ⟨-1, 0⟩
      (by norm_num [Vector2D.magnitude_squared]) (by norm_num)).2.2.2 rfl 1
    (by norm_num [Vector2D.smul]) (by norm_num [Vector2D.smul])

end Billiards
